import Mathlib

/-!
Shallow embedding of the passenger router of the Ride_Share_Web repository
(`routes/passenger` in the source tree; the file registering the
`/profile`, `/my-join-requests`, `/register`, `/signin`, `/update` and
`/google-signup` handlers).

Modelling conventions:
* MongoDB collections become lists; `findOne` / `findById` become
  `List.find?`, `find` becomes `List.filter`, a successful `save` appends
  or replaces a record.
* JavaScript objects whose key *presence* matters (the rideshare views and
  the profile body) become association lists `List (String × value)`, so
  that a conditionally-spread key is genuinely absent, not null.
* External effects (bcrypt, the database promise layer, Google token
  verification) are parameters of the handler, collected in small
  environment structures; a promise rejection is the `Except.error` case.
* Express `res.json(x)` without an explicit status is HTTP 200; the
  handlers return a record carrying the HTTP status and the body fields.
-/

/-- A passenger document, with the fields the router reads and writes
(`_id`, `email`, `password` (the bcrypt hash), `name`, `phonenumber`,
optional `avatar`). -/
structure Passenger where
  _id : Nat
  email : String
  password : String
  name : String
  phonenumber : String
  avatar : Option (String × String)
deriving DecidableEq, Repr

/-- A driver document; the router only reads its `email` for the
cross-variant uniqueness check. -/
structure Driver where
  _id : Nat
  email : String
deriving DecidableEq, Repr

/-- A driver post document, with the fields the rideshare views read. -/
structure Driverpost where
  _id : Nat
  startingLocation : String
  endingLocation : String
  startTime : String
  additionalNotes : String
  numberOfSeats : Nat
  licensenumber : String
  model : String
  phonenumber : String
  email : String
deriving DecidableEq, Repr

/-- A join-request document: `driverPostId` is stored as a reference (an
id) and resolved by `populate`. -/
structure JoinRequestRec where
  passengerId : Nat
  driverPostId : Nat
  status : String
deriving DecidableEq, Repr

/-- A passenger post document. -/
structure Passengerpost where
  _id : Nat
  passengerId : Nat
  startingLocation : String
  endingLocation : String
  startTime : String
deriving DecidableEq, Repr

/-- The database: one list per collection. -/
structure DB where
  passengers : List Passenger
  drivers : List Driver
  joinRequests : List JoinRequestRec
  driverPosts : List Driverpost
  passengerPosts : List Passengerpost
deriving DecidableEq, Repr

/-- The `emailExistsInBoth(email)` helper: a `findOne({email})` on each
of the Passenger and Driver collections; true when either hit is
non-null.  Its value is a boolean, not the found document. -/
def emailExistsInBoth (db : DB) (email : String) : Bool :=
  ((db.passengers.find? (fun p => p.email == email)).isSome ||
   (db.drivers.find? (fun d => d.email == email)).isSome)

-- ===================== the /register validators =====================

/-- JavaScript `String.prototype.trim`, written structurally over the
character list: whitespace is dropped from both ends. -/
def jsTrim (s : String) : String :=
  ⟨(((s.data.dropWhile Char.isWhitespace).reverse).dropWhile Char.isWhitespace).reverse⟩

/-- Split a character list at every separator character, keeping empty
pieces, as JavaScript `String.prototype.split` does. -/
def splitOnChar (p : Char → Bool) : List Char → List (List Char)
  | [] => [[]]
  | c :: cs =>
    if p c then [] :: splitOnChar p cs
    else
      match splitOnChar p cs with
      | [] => [[c]]
      | g :: gs => (c :: g) :: gs

/-- A `\w` character of the JavaScript regexes: letter, digit or
underscore. -/
def wordChar (c : Char) : Bool :=
  (('a' ≤ c && c ≤ 'z') || ('A' ≤ c && c ≤ 'Z') || c.isDigit || c == '_')

/-- A character allowed in the local part by `[\w-\.]`. -/
def localChar (c : Char) : Bool :=
  wordChar c || c == '-' || c == '.'

/-- A character allowed in a domain label by `[\w-]`. -/
def domChar (c : Char) : Bool :=
  wordChar c || c == '-'

/-- The anchored email regex of /register:
`^[\w-\.]+@([\w-]+\.)+[\w-]{2,4}$`.  Neither side may contain `@`, so the
string decomposes as local`@`domain; the domain part decomposes uniquely
at the dots into one or more non-empty `[\w-]+` labels followed by a
final label of length 2 to 4. -/
def emailFormatOk (s : String) : Bool :=
  match splitOnChar (fun c => c == '@') s.data with
  | [localPart, domain] =>
    (localPart ≠ [] && localPart.all localChar &&
     (match (splitOnChar (fun c => c == '.') domain).reverse with
      | last :: labels =>
        (2 ≤ last.length && last.length ≤ 4 && last.all domChar &&
         labels ≠ [] && labels.all (fun l => l ≠ [] && l.all domChar))
      | [] => false))
  | _ => false

/-- The name regex of /register, `^[a-zA-z]*$`, embedded with its typo:
the second range is `A` (65) to `z` (122), so it also accepts the six
ASCII characters between `Z` and `a` (`[`, backslash, `]`, `^`, `_` and
the backtick). -/
def nameCharOk (c : Char) : Bool :=
  ('a' ≤ c && c ≤ 'z') || ('A' ≤ c && c ≤ 'z')

/-- The whole-name check `^[a-zA-z]*$`. -/
def nameOk (s : String) : Bool :=
  s.data.all nameCharOk

/-- The phone regex of /register, `^\d{10}$`. -/
def phoneOk (s : String) : Bool :=
  (s.length == 10 && s.data.all Char.isDigit)

-- ===================== POST /register =====================

/-- Environment of the /register handler: the outcome of the
`emailExistsInBoth` promise (`checkOk = false` is a rejection), the
`bcrypt.hash` outcome, whether `newPassenger.save()` succeeds, and the
`_id` Mongoose assigns to the new document. -/
structure RegEnv where
  checkOk : Bool
  hash : String → Except Unit String
  saveOk : Bool
  freshId : Nat

/-- What the /register handler sends back, plus the resulting database.
Every branch of the handler answers through `res.json` with no explicit
status call, hence HTTP 200. -/
structure RegisterResult where
  db : DB
  httpStatus : Nat
  status : String
  message : String
deriving Repr

/-- The `/register` handler: trim the four fields, run the validation
chain, the cross-variant duplicate check, hash, and save. -/
def register (env : RegEnv) (db : DB)
    (email password name phonenumber : String) : RegisterResult :=
  let email := jsTrim email
  let password := jsTrim password
  let name := jsTrim name
  let phonenumber := jsTrim phonenumber
  if email = "" ∨ password = "" ∨ name = "" ∨ phonenumber = "" then
    ⟨db, 200, "FAILED", "Empty Input for some fields"⟩
  else if ¬ emailFormatOk email then
    ⟨db, 200, "FAILED", "Invalid Email"⟩
  else if ¬ nameOk name then
    ⟨db, 200, "FAILED", "Invalid Name"⟩
  else if ¬ phoneOk phonenumber then
    ⟨db, 200, "FAILED", "Invalid PhoneNumber"⟩
  else if password.length < 8 then
    ⟨db, 200, "FAILED", "Invalid Password"⟩
  else if ¬ env.checkOk then
    ⟨db, 200, "FAILED", "Error Occur when trying to check for existing User"⟩
  else if emailExistsInBoth db email then
    ⟨db, 200, "FAILED", "User with this email already exist as a driver or passenger"⟩
  else
    match env.hash password with
    | Except.error _ =>
      ⟨db, 200, "FAILED", "Error Occur when hashing password"⟩
    | Except.ok hashPassword =>
      if env.saveOk then
        ⟨{ db with passengers :=
             db.passengers ++ [⟨env.freshId, email, hashPassword, name, phonenumber, none⟩] },
         200, "SUCCESS", "Registration Successfully"⟩
      else
        ⟨db, 200, "FAILED", "Error Occur when trying to save user account"⟩

-- ===================== POST /signin =====================

/-- Environment of the /signin handler: the outcome of
`bcrypt.compare(password, hashPassword)`; `Except.error` is a promise
rejection. -/
structure SigninEnv where
  compare : String → String → Except Unit Bool

/-- What the /signin handler sends back.  `token` and `data` model the
presence of those keys in the JSON body: `none` means the key is not in
the body at all. -/
structure SigninResult where
  httpStatus : Nat
  status : String
  message : String
  token : Option Nat
  data : Option (List Passenger)
deriving Repr

/-- The `/signin` handler.  `Passenger.find({email})` yields an array,
which is always truthy, so the handler goes on to read `data[0]`; on an
empty array that access throws and lands in the final catch
(`No existing User with input email`).  The token is signed from
`data[0]._id` before the password is compared, but is only put in the
response on a successful comparison. -/
def signin (env : SigninEnv) (db : DB) (email password : String) : SigninResult :=
  let email := jsTrim email
  let password := jsTrim password
  if email = "" ∨ password = "" then
    ⟨200, "FAILED", "Empty input", none, none⟩
  else
    match db.passengers.filter (fun p => p.email == email) with
    | [] => ⟨200, "FAILED", "No existing User with input email", none, none⟩
    | d :: ds =>
      let token := d._id
      match env.compare password d.password with
      | Except.error _ =>
        ⟨200, "FAILED", "Error Occur when trying to check for password", none, none⟩
      | Except.ok true =>
        ⟨200, "Success", "User Successfully logged in", some token, some (d :: ds)⟩
      | Except.ok false =>
        ⟨200, "FAILED", "Wrong password", none, none⟩

-- ===================== PUT /update =====================

/-- JavaScript truthiness of an optional string field of `req.body`:
absent, undefined and the empty string are falsy. -/
def truthy : Option String → Bool
  | none => false
  | some s => s ≠ ""

/-- Environment of the /update handler: the `bcrypt.hash` outcome for a
new password and whether `user.save()` succeeds. -/
structure UpdateEnv where
  hash : String → Except Unit String
  saveOk : Bool

/-- What the /update handler sends back plus the resulting database.
`status`/`data` are `none` when the body does not carry those keys. -/
structure UpdateResult where
  db : DB
  httpStatus : Nat
  status : Option String
  message : String
  data : Option Passenger
deriving Repr

/-- The in-memory passenger document after the three field mutations of
the /update handler (name, phonenumber, email), each applied only to a
truthy input and stored trimmed.  The email mutation is only reached when
the duplicate check passed, which the caller of this function encodes. -/
def applyFieldUpdates (u : Passenger) (name phonenumber : Option String)
    (emailVal : Option String) : Passenger :=
  let u := if truthy name then { u with name := jsTrim (name.getD "") } else u
  let u := if truthy phonenumber then { u with phonenumber := jsTrim (phonenumber.getD "") } else u
  match emailVal with
  | some e => { u with email := jsTrim e }
  | none => u

/-- Final step of /update: optionally hash and set the new password, then
`user.save()`: on success the passenger with this `_id` is replaced and
the handler answers 200, otherwise 500. -/
def finishUpdate (env : UpdateEnv) (db : DB) (userId : Nat) (u : Passenger)
    (newPassword : Option String) : UpdateResult :=
  let saved := fun (u : Passenger) =>
    if env.saveOk then
      ⟨{ db with passengers := db.passengers.map (fun p => if p._id == userId then u else p) },
       200, some "SUCCESS", "Profile updated successfully", some u⟩
    else
      (⟨db, 500, none, "save error", none⟩ : UpdateResult)
  if truthy newPassword then
    match env.hash (newPassword.getD "") with
    | Except.error _ => ⟨db, 500, none, "hash error", none⟩
    | Except.ok hp => saved { u with password := hp }
  else saved u

/-- The `/update` handler: find the user, mutate the truthy fields
(trimmed), guard an email change with `emailExistsInBoth` on the raw
submitted email (skipped when the submitted email equals the stored one),
optionally rotate the password, and save.  No format validation is run on
any field. -/
def updateProfile (env : UpdateEnv) (db : DB) (userId : Nat)
    (name phonenumber email newPassword : Option String) : UpdateResult :=
  match db.passengers.find? (fun p => p._id == userId) with
  | none => ⟨db, 404, none, "User not found", none⟩
  | some user =>
    if truthy email ∧ email.getD "" ≠ user.email then
      if emailExistsInBoth db (email.getD "") then
        ⟨db, 400, none, "Email already in use", none⟩
      else
        finishUpdate env db userId (applyFieldUpdates user name phonenumber email) newPassword
    else
      finishUpdate env db userId (applyFieldUpdates user name phonenumber none) newPassword

-- ===================== rideshare views =====================

/-- A leaf JSON value of a rideshare view entry. -/
inductive JVal where
  | str : String → JVal
  | num : Nat → JVal
deriving DecidableEq, Repr

/-- A join request after `.populate(driverPostId)`: the reference is
either resolved to the post document or null (`none`). -/
structure PopJoinReq where
  passengerId : Nat
  driverPostId : Option Driverpost
  status : String
deriving DecidableEq, Repr

/-- Resolve the `driverPostId` reference of a stored join request against
the Driverpost collection, as `populate` does. -/
def populateReq (db : DB) (r : JoinRequestRec) : PopJoinReq :=
  ⟨r.passengerId, db.driverPosts.find? (fun p => p._id == r.driverPostId), r.status⟩

/-- The populated join requests of one passenger:
`joinRequest.find({passengerId}).populate(driverPostId)`. -/
def populatedOf (db : DB) (passengerId : Nat) : List PopJoinReq :=
  (db.joinRequests.filter (fun r => r.passengerId == passengerId)).map (populateReq db)

/-- One entry of the `rideshares` array, built identically in /profile
and /my-join-requests: seven unconditional keys, and the four
contact/vehicle keys spread into the object only when
`request.status === accepted`. -/
def rideshareDetails (status : String) (post : Driverpost) : List (String × JVal) :=
  [("postId", JVal.num post._id),
   ("startingLocation", JVal.str post.startingLocation),
   ("endingLocation", JVal.str post.endingLocation),
   ("startTime", JVal.str post.startTime),
   ("status", JVal.str status),
   ("additionalNotes", JVal.str post.additionalNotes),
   ("numberOfSeats", JVal.num post.numberOfSeats)] ++
  (if status = "accepted" then
    [("licensenumber", JVal.str post.licensenumber),
     ("model", JVal.str post.model),
     ("phonenumber", JVal.str post.phonenumber),
     ("email", JVal.str post.email)]
   else [])

/-- The `JoinRequests.map(...)` of both handlers.  The callback starts by
reading `request.driverPostId._id`; on a dangling (null) populated
reference that property access throws a TypeError, which aborts the whole
map and is caught by the catch block of the route. -/
def mapRideshares : List PopJoinReq → Except String (List (List (String × JVal)))
  | [] => Except.ok []
  | r :: rs =>
    match r.driverPostId with
    | none => Except.error "TypeError: cannot read _id of null"
    | some post =>
      match mapRideshares rs with
      | Except.error e => Except.error e
      | Except.ok vs => Except.ok (rideshareDetails r.status post :: vs)

-- ===================== GET /my-join-requests =====================

/-- Outcome of the /my-join-requests handler: the rideshares array as
JSON (HTTP 200), or the HTTP 500 of the catch block. -/
inductive JoinListRes where
  | ok : List (List (String × JVal)) → JoinListRes
  | serverError : String → JoinListRes
deriving DecidableEq, Repr

/-- The `/my-join-requests` handler. -/
def myJoinRequests (db : DB) (passengerId : Nat) : JoinListRes :=
  match mapRideshares (populatedOf db passengerId) with
  | Except.error e => JoinListRes.serverError e
  | Except.ok rs => JoinListRes.ok rs

-- ===================== GET /profile =====================

/-- A value of the profile body object. -/
inductive PVal where
  | str : String → PVal
  | num : Nat → PVal
  | undef : PVal
  | avatarField : Option (String × String) → PVal
  | rideshares : List (List (String × JVal)) → PVal
  | posts : List Passengerpost → PVal
deriving DecidableEq, Repr

/-- The fields of the stored passenger document, as `...user._doc`
spreads them into the response object: every stored field, the bcrypt
`password` hash included. -/
def userDoc (u : Passenger) : List (String × PVal) :=
  [("_id", PVal.num u._id),
   ("email", PVal.str u.email),
   ("password", PVal.str u.password),
   ("name", PVal.str u.name),
   ("phonenumber", PVal.str u.phonenumber),
   ("avatar", PVal.avatarField u.avatar)]

/-- JavaScript object-literal semantics of writing one more key after a
spread: replace the value in place when the key is already there, append
it otherwise. -/
def setKey : List (String × PVal) → String → PVal → List (String × PVal)
  | [], k, v => [(k, v)]
  | (k0, v0) :: rest, k, v =>
    if k0 = k then (k, v) :: rest else (k0, v0) :: setKey rest k v

/-- The `userProfile` object of /profile:
`{...user._doc, avatar: avatarBase64, rideshares, passengerPosts}`. -/
def userProfile (u : Passenger) (avatarBase64 : PVal)
    (rs : List (List (String × JVal))) (pp : List Passengerpost) : List (String × PVal) :=
  setKey (setKey (setKey (userDoc u) "avatar" avatarBase64)
    "rideshares" (PVal.rideshares rs)) "passengerPosts" (PVal.posts pp)

/-- Outcome of the /profile handler: 404 when `findById` misses, 500 from
the catch block, or the composed profile body with HTTP 200. -/
inductive ProfileRes where
  | notFound : ProfileRes
  | serverError : String → ProfileRes
  | ok : List (String × PVal) → ProfileRes
deriving DecidableEq, Repr

/-- The `/profile` handler: find the user, render the avatar buffer as a
data URL when present (we model a buffer by its base64 text), build the
rideshares array — a dangling populated reference throws into the catch
block — and spread the whole user document into the response. -/
def getProfile (db : DB) (userId : Nat) : ProfileRes :=
  match db.passengers.find? (fun p => p._id == userId) with
  | none => ProfileRes.notFound
  | some user =>
    let avatarBase64 : PVal :=
      match user.avatar with
      | some av => PVal.str ("data:" ++ av.1 ++ ";base64," ++ av.2)
      | none => PVal.undef
    match mapRideshares (populatedOf db userId) with
    | Except.error e => ProfileRes.serverError e
    | Except.ok rs =>
      ProfileRes.ok (userProfile user avatarBase64 rs
        (db.passengerPosts.filter (fun p => p.passengerId == userId)))

-- ===================== POST /google-signup =====================

/-- A verified Google token payload. -/
structure GooglePayload where
  email : String
  name : String
deriving DecidableEq, Repr

/-- Environment of the /google-signup handler: the `verifyGoogleToken`
outcome, the bcrypt hash of the random placeholder password, whether the
hash-and-save of a fresh user succeeds, and the `_id` Mongoose assigns. -/
structure GoogleEnv where
  verify : Except Unit GooglePayload
  hashRand : String
  saveOk : Bool
  freshId : Nat

/-- The `user` variable of /google-signup at response time: a fresh
passenger document, or the literal boolean `true` that
`emailExistsInBoth` returned for an already-registered email. -/
inductive GUserField where
  | pass : Passenger → GUserField
  | boolTrue : GUserField
deriving DecidableEq, Repr

/-- What the /google-signup handler sends back plus the resulting
database.  `tokenSubject` is the `userId` claim of the signed token:
`none` models the JavaScript `undefined` produced by reading `._id` off a
boolean. -/
structure GoogleResult where
  db : DB
  httpStatus : Nat
  message : String
  tokenSubject : Option Nat
  user : Option GUserField
deriving Repr

/-- The `/google-signup` handler.  `let user = await emailExistsInBoth(email)`
binds a boolean; when it is `true` nothing is re-fetched (the
existing-user branch is an empty comment), so `jwt.sign({userId: user._id})`
signs `undefined`.  When it is `false` a fresh passenger is created and
saved; its hash/save failure lands in the catch block (HTTP 500). -/
def googleSignup (env : GoogleEnv) (db : DB) : GoogleResult :=
  match env.verify with
  | Except.error _ => ⟨db, 500, "Internal server error", none, none⟩
  | Except.ok payload =>
    if emailExistsInBoth db payload.email then
      ⟨db, 200, "User authenticated successfully", none, some GUserField.boolTrue⟩
    else
      let newUser : Passenger := ⟨env.freshId, payload.email, env.hashRand, payload.name, "", none⟩
      if env.saveOk then
        ⟨{ db with passengers := db.passengers ++ [newUser] },
         200, "User authenticated successfully", some env.freshId, some (GUserField.pass newUser)⟩
      else
        ⟨db, 500, "Internal server error", none, none⟩

-- ===================== concrete fixtures =====================

/-- A registered passenger used by the concrete checks below. -/
def aliceP : Passenger := ⟨1, "a@b.com", "H", "Alice", "1234567890", none⟩

/-- A database holding only `aliceP`. -/
def aliceDB : DB := ⟨[aliceP], [], [], [], []⟩

/-- A database holding `aliceP` and one driver account. -/
def bothDB : DB := ⟨[aliceP], [⟨2, "d@x.com"⟩], [], [], []⟩

/-- A /register environment where every external step succeeds. -/
def okEnvReg : RegEnv := ⟨true, fun s => Except.ok ("h" ++ s), true, 2⟩

/-- A driver post used by the concrete checks below. -/
def post10 : Driverpost := ⟨10, "LA", "SF", "t1", "notes", 3, "LIC", "Tesla", "5551234567", "d@x.com"⟩

/-- A database where Alice has one accepted and one pending join request
against `post10`. -/
def ridesDB : DB := ⟨[aliceP], [], [⟨1, 10, "accepted"⟩, ⟨1, 10, "pending"⟩], [post10], []⟩

/-- A database where Alice has one resolvable join request and one whose
referenced driver post (id 99) does not exist. -/
def danglingDB : DB := ⟨[aliceP], [], [⟨1, 10, "accepted"⟩, ⟨1, 99, "pending"⟩], [post10], []⟩

/-- The view built for the accepted request of `ridesDB`: the seven base
keys plus the four contact/vehicle keys. -/
def acceptedView : List (String × JVal) :=
  [("postId", JVal.num 10), ("startingLocation", JVal.str "LA"),
   ("endingLocation", JVal.str "SF"), ("startTime", JVal.str "t1"),
   ("status", JVal.str "accepted"), ("additionalNotes", JVal.str "notes"),
   ("numberOfSeats", JVal.num 3), ("licensenumber", JVal.str "LIC"),
   ("model", JVal.str "Tesla"), ("phonenumber", JVal.str "5551234567"),
   ("email", JVal.str "d@x.com")]

/-- The view built for the pending request of `ridesDB`: only the seven
base keys. -/
def pendingView : List (String × JVal) :=
  [("postId", JVal.num 10), ("startingLocation", JVal.str "LA"),
   ("endingLocation", JVal.str "SF"), ("startTime", JVal.str "t1"),
   ("status", JVal.str "pending"), ("additionalNotes", JVal.str "notes"),
   ("numberOfSeats", JVal.num 3)]

/-- The /profile body computed for `aliceDB`. -/
def aliceBody : List (String × PVal) :=
  [("_id", PVal.num 1), ("email", PVal.str "a@b.com"), ("password", PVal.str "H"),
   ("name", PVal.str "Alice"), ("phonenumber", PVal.str "1234567890"),
   ("avatar", PVal.undef), ("rideshares", PVal.rideshares []),
   ("passengerPosts", PVal.posts [])]

/-- A Google sign-up environment whose verified payload carries the email
already registered to Alice. -/
def gEnvExisting : GoogleEnv := ⟨Except.ok ⟨"a@b.com", "Alice"⟩, "RH", true, 9⟩

/-- An /update environment where hashing and saving succeed. -/
def okEnvUpd : UpdateEnv := ⟨fun s => Except.ok ("h" ++ s), true⟩

-- ===================== theorems =====================

/-- Auxiliary: every view of a successfully built rideshares list comes
from a request of the input list whose post reference resolved. -/
theorem mapRideshares_mem {reqs : List PopJoinReq} {views : List (List (String × JVal))}
    (h : mapRideshares reqs = Except.ok views) :
    ∀ v ∈ views, ∃ r, r ∈ reqs ∧ ∃ p, r.driverPostId = some p ∧
      v = rideshareDetails r.status p := by
  induction reqs generalizing views with
  | nil =>
    simp only [mapRideshares, Except.ok.injEq] at h
    subst h
    intro v hv
    exact absurd hv (List.not_mem_nil v)
  | cons r rs ih =>
    simp only [mapRideshares] at h
    cases hpost : r.driverPostId with
    | none => simp [hpost] at h
    | some p =>
      simp only [hpost] at h
      cases hrec : mapRideshares rs with
      | error e => simp [hrec] at h
      | ok vs =>
        simp only [hrec, Except.ok.injEq] at h
        subst h
        intro v hv
        rcases List.mem_cons.mp hv with hv1 | hv2
        · exact ⟨r, List.mem_cons_self r rs, p, hpost, hv1⟩
        · rcases ih hrec v hv2 with ⟨r1, hr1, p1, hp1, heq⟩
          exact ⟨r1, List.mem_cons_of_mem r hr1, p1, hp1, heq⟩

/-- Auxiliary: key presence in one rideshare view — the four
contact/vehicle keys are present exactly when the status is accepted,
the seven base keys always. -/
theorem rideshareDetails_keys (status : String) (post : Driverpost) :
    (("licensenumber" ∈ (rideshareDetails status post).map Prod.fst ↔ status = "accepted") ∧
     ("model" ∈ (rideshareDetails status post).map Prod.fst ↔ status = "accepted") ∧
     ("phonenumber" ∈ (rideshareDetails status post).map Prod.fst ↔ status = "accepted") ∧
     ("email" ∈ (rideshareDetails status post).map Prod.fst ↔ status = "accepted")) ∧
    ("postId" ∈ (rideshareDetails status post).map Prod.fst ∧
     "startingLocation" ∈ (rideshareDetails status post).map Prod.fst ∧
     "endingLocation" ∈ (rideshareDetails status post).map Prod.fst ∧
     "startTime" ∈ (rideshareDetails status post).map Prod.fst ∧
     "status" ∈ (rideshareDetails status post).map Prod.fst ∧
     "additionalNotes" ∈ (rideshareDetails status post).map Prod.fst ∧
     "numberOfSeats" ∈ (rideshareDetails status post).map Prod.fst) := by
  by_cases hs : status = "accepted" <;> simp [rideshareDetails, hs]

/-- Auxiliary: the composed profile object written out — the spread of
the stored document with avatar overridden and the two aggregate keys
appended. -/
theorem userProfile_eq (u : Passenger) (av : PVal)
    (rs : List (List (String × JVal))) (pp : List Passengerpost) :
    userProfile u av rs pp =
      [("_id", PVal.num u._id), ("email", PVal.str u.email),
       ("password", PVal.str u.password), ("name", PVal.str u.name),
       ("phonenumber", PVal.str u.phonenumber), ("avatar", av),
       ("rideshares", PVal.rideshares rs), ("passengerPosts", PVal.posts pp)] := rfl

/-- Auxiliary: a dangling populated reference makes the rideshares map
throw. -/
theorem mapRideshares_error {reqs : List PopJoinReq}
    (h : ∃ r ∈ reqs, r.driverPostId = none) :
    mapRideshares reqs = Except.error "TypeError: cannot read _id of null" := by
  induction reqs with
  | nil =>
    rcases h with ⟨r, hr, _⟩
    exact absurd hr (List.not_mem_nil r)
  | cons r rs ih =>
    rcases h with ⟨r1, hr1, hnone⟩
    rcases List.mem_cons.mp hr1 with heq | hmem
    · subst heq
      simp only [mapRideshares, hnone]
    · simp only [mapRideshares]
      cases hpost : r.driverPostId with
      | none => rfl
      | some p => rw [ih ⟨r1, hmem, hnone⟩]

/-- C10: every outcome of the /register handler — success and each of the
failure cases (empty fields, invalid email, invalid name, invalid phone
number, weak password, failed existence check, duplicate email, hashing
error, save error) — is delivered with HTTP status 200, so failures are
distinguishable only through the status and message fields of the JSON
body. -/
theorem C10_register_always_http_200 (env : RegEnv) (db : DB)
    (email password name phonenumber : String) :
    (register env db email password name phonenumber).httpStatus = 200 ∧
    ((register env db email password name phonenumber).status = "SUCCESS" ∨
     (register env db email password name phonenumber).status = "FAILED") := by
  simp only [register]
  repeat' split
  all_goals simp

/-- C7: a local sign-in against an existing account (the email filter
returns at least one document) whose stored hash does not match the
submitted password fails with the Wrong password message, and the
response carries no token and no identity data. -/
theorem C7_wrong_password_no_token (env : SigninEnv) (db : DB)
    (email password : String) (d : Passenger) (ds : List Passenger)
    (hne : ¬ (jsTrim email = "" ∨ jsTrim password = ""))
    (hfind : db.passengers.filter (fun p => p.email == jsTrim email) = d :: ds)
    (hcmp : env.compare (jsTrim password) d.password = Except.ok false) :
    signin env db email password = ⟨200, "FAILED", "Wrong password", none, none⟩ := by
  simp only [signin]
  rw [if_neg hne, hfind]
  dsimp only
  rw [hcmp]

theorem C7_wrong_password_no_token_witness :
    signin ⟨fun _ _ => Except.ok false⟩ aliceDB "a@b.com" "wrongpass" =
      ⟨200, "FAILED", "Wrong password", none, none⟩ :=
  C7_wrong_password_no_token ⟨fun _ _ => Except.ok false⟩ aliceDB "a@b.com" "wrongpass"
    aliceP [] (by decide) (by decide) rfl

/-- C6 (code bug): the /register name guard is the regex `[a-zA-z]*`,
whose second range runs from A (65) to z (122) and therefore also accepts
the six ASCII characters strictly between Z and a; a name such as ab_cd
contains a non-alphabetic character, yet the handler accepts it and
creates the identity instead of failing with Invalid Name. -/
theorem C6_name_guard_accepts_underscore :
    nameOk "ab_cd" = true ∧
    (register okEnvReg ⟨[], [], [], [], []⟩ "x@y.com" "password1" "ab_cd" "1234567890").status
      = "SUCCESS" ∧
    (register okEnvReg ⟨[], [], [], [], []⟩ "x@y.com" "password1" "ab_cd" "1234567890").message
      = "Registration Successfully" ∧
    (register okEnvReg ⟨[], [], [], [], []⟩ "x@y.com" "password1" "ab_cd" "1234567890").db.passengers
      = [⟨2, "x@y.com", "hpassword1", "ab_cd", "1234567890", none⟩] := by
  decide

/-- C2 counterexample: with a@b.com already registered, the duplicate
attempt (a@b.com, password1, Bob9, 1234567890) is rejected with Invalid
Name — the validation chain runs before the duplicate check — so the
claim that every duplicate-email attempt fails with the duplicate-email
error is false as stated. -/
theorem C2_counterexample_validation_first :
    emailExistsInBoth aliceDB "a@b.com" = true ∧
    (register okEnvReg aliceDB "a@b.com" "password1" "Bob9" "1234567890").status = "FAILED" ∧
    (register okEnvReg aliceDB "a@b.com" "password1" "Bob9" "1234567890").message = "Invalid Name" ∧
    "Invalid Name" ≠ "User with this email already exist as a driver or passenger" := by
  decide

/-- C2 (amended): a registration attempt whose trimmed email already
exists in either identity variant never succeeds — the database is left
unchanged, so nothing is created or overwritten — and the failure is the
duplicate-email message whenever the field validations pass and the
existence check resolves. -/
theorem C2_duplicate_email_never_creates (env : RegEnv) (db : DB)
    (email password name phonenumber : String)
    (hdup : emailExistsInBoth db (jsTrim email) = true) :
    ((register env db email password name phonenumber).db = db ∧
     (register env db email password name phonenumber).status = "FAILED") ∧
    (jsTrim email ≠ "" → jsTrim password ≠ "" → jsTrim name ≠ "" → jsTrim phonenumber ≠ "" →
     emailFormatOk (jsTrim email) = true → nameOk (jsTrim name) = true →
     phoneOk (jsTrim phonenumber) = true → ¬ (jsTrim password).length < 8 → env.checkOk = true →
     (register env db email password name phonenumber).message =
       "User with this email already exist as a driver or passenger") := by
  constructor
  · simp only [register]
    repeat' split
    all_goals simp_all
  · intro h1 h2 h3 h4 h5 h6 h7 h8 h9
    simp only [register]
    simp [h1, h2, h3, h4, h5, h6, h7, h8, h9, hdup]

theorem C2_duplicate_email_never_creates_witness :
    emailExistsInBoth bothDB "d@x.com" = true ∧
    ((register okEnvReg bothDB "d@x.com" "password1" "Alice" "1234567890").db = bothDB ∧
     (register okEnvReg bothDB "d@x.com" "password1" "Alice" "1234567890").status = "FAILED") ∧
    (register okEnvReg bothDB "d@x.com" "password1" "Alice" "1234567890").message =
      "User with this email already exist as a driver or passenger" :=
  ⟨by decide,
   (C2_duplicate_email_never_creates okEnvReg bothDB "d@x.com" "password1" "Alice" "1234567890"
     (by decide)).1,
   (C2_duplicate_email_never_creates okEnvReg bothDB "d@x.com" "password1" "Alice" "1234567890"
     (by decide)).2 (by decide) (by decide) (by decide) (by decide) (by decide) (by decide)
     (by decide) (by decide) rfl⟩

/-- C1: in every successfully built rideshares listing — the same
computation is returned directly by /my-join-requests and under the
rideshares key of the /profile body — each returned view object belongs
to one of the passenger's join requests and carries each of the four
contact/vehicle keys (licensenumber, model, phonenumber, email) exactly
when that request has status accepted; for any other status, pending and
rejected included, those keys are absent from the object, while the
route, time, seat-count, notes and status keys are always present. -/
theorem C1_status_gated_disclosure (db : DB) (uid : Nat)
    (views : List (List (String × JVal)))
    (hok : mapRideshares (populatedOf db uid) = Except.ok views) :
    myJoinRequests db uid = JoinListRes.ok views ∧
    (∀ body, getProfile db uid = ProfileRes.ok body →
      ("rideshares", PVal.rideshares views) ∈ body) ∧
    ∀ v ∈ views, ∃ r, r ∈ populatedOf db uid ∧ ∃ p, r.driverPostId = some p ∧
      v = rideshareDetails r.status p ∧
      (("licensenumber" ∈ v.map Prod.fst ↔ r.status = "accepted") ∧
       ("model" ∈ v.map Prod.fst ↔ r.status = "accepted") ∧
       ("phonenumber" ∈ v.map Prod.fst ↔ r.status = "accepted") ∧
       ("email" ∈ v.map Prod.fst ↔ r.status = "accepted")) ∧
      ("postId" ∈ v.map Prod.fst ∧ "startingLocation" ∈ v.map Prod.fst ∧
       "endingLocation" ∈ v.map Prod.fst ∧ "startTime" ∈ v.map Prod.fst ∧
       "status" ∈ v.map Prod.fst ∧ "additionalNotes" ∈ v.map Prod.fst ∧
       "numberOfSeats" ∈ v.map Prod.fst) := by
  refine ⟨by simp [myJoinRequests, hok], ?_, ?_⟩
  · intro body hbody
    unfold getProfile at hbody
    cases hfind : db.passengers.find? (fun p => p._id == uid) with
    | none => rw [hfind] at hbody; exact absurd hbody (by simp)
    | some u =>
      rw [hfind] at hbody
      dsimp only at hbody
      rw [hok] at hbody
      injection hbody with hbody
      subst hbody
      rw [userProfile_eq]
      simp
  · intro v hv
    rcases mapRideshares_mem hok v hv with ⟨r, hr, p, hp, hveq⟩
    subst hveq
    exact ⟨r, hr, p, hp, rfl, (rideshareDetails_keys r.status p).1,
      (rideshareDetails_keys r.status p).2⟩

theorem C1_status_gated_disclosure_witness :
    myJoinRequests ridesDB 1 = JoinListRes.ok [acceptedView, pendingView] ∧
    ("licensenumber" ∈ acceptedView.map Prod.fst ∧
     "licensenumber" ∉ pendingView.map Prod.fst) :=
  ⟨(C1_status_gated_disclosure ridesDB 1 [acceptedView, pendingView] rfl).1,
   by decide, by decide⟩

/-- C3 counterexample: in danglingDB the passenger has one resolvable
accepted request and one request whose referenced driver post is gone;
neither endpoint skips only the dangling record and returns the valid
entry with a success response — both abort with the server-error
outcome. -/
theorem C3_counterexample_no_partial_listing :
    (⟨1, none, "pending"⟩ : PopJoinReq) ∈ populatedOf danglingDB 1 ∧
    (⟨1, some post10, "accepted"⟩ : PopJoinReq) ∈ populatedOf danglingDB 1 ∧
    myJoinRequests danglingDB 1 =
      JoinListRes.serverError "TypeError: cannot read _id of null" ∧
    getProfile danglingDB 1 =
      ProfileRes.serverError "TypeError: cannot read _id of null" := by
  decide

/-- C3 (amended): when any join request of the passenger has a dangling
driver-post reference, the TypeError thrown while building its view
aborts the whole listing: /profile and /my-join-requests both answer
with the HTTP 500 server-error outcome from their catch blocks and
return none of the remaining valid entries. -/
theorem C3_dangling_reference_aborts_listing (db : DB) (uid : Nat) (u : Passenger)
    (hfind : db.passengers.find? (fun p => p._id == uid) = some u)
    (hdangling : ∃ r ∈ populatedOf db uid, r.driverPostId = none) :
    getProfile db uid = ProfileRes.serverError "TypeError: cannot read _id of null" ∧
    myJoinRequests db uid = JoinListRes.serverError "TypeError: cannot read _id of null" := by
  constructor
  · unfold getProfile
    rw [hfind]
    dsimp only
    rw [mapRideshares_error hdangling]
  · unfold myJoinRequests
    rw [mapRideshares_error hdangling]

theorem C3_dangling_reference_aborts_listing_witness :
    getProfile danglingDB 1 = ProfileRes.serverError "TypeError: cannot read _id of null" ∧
    myJoinRequests danglingDB 1 =
      JoinListRes.serverError "TypeError: cannot read _id of null" :=
  C3_dangling_reference_aborts_listing danglingDB 1 aliceP (by decide)
    ⟨⟨1, none, "pending"⟩, by decide, rfl⟩

/-- C4 counterexample: the profile body computed for Alice carries a
password key holding the stored bcrypt hash, so the claim that the
credential verifier is excluded from the returned profile is false. -/
theorem C4_counterexample_password_key_present :
    getProfile aliceDB 1 = ProfileRes.ok aliceBody ∧
    "password" ∈ aliceBody.map Prod.fst ∧
    ("password", PVal.str "H") ∈ aliceBody := by
  decide

/-- C4 (amended): for every identity that exists and whose rideshares
build succeeds, the profile body contains the identity's own public
attributes and also the stored hashed password under the password key —
the spread of the stored document does not exclude the credential
verifier. -/
theorem C4_profile_contains_password_hash (db : DB) (uid : Nat) (u : Passenger)
    (views : List (List (String × JVal)))
    (hfind : db.passengers.find? (fun p => p._id == uid) = some u)
    (hok : mapRideshares (populatedOf db uid) = Except.ok views) :
    ∃ body, getProfile db uid = ProfileRes.ok body ∧
      ("_id", PVal.num u._id) ∈ body ∧ ("email", PVal.str u.email) ∈ body ∧
      ("name", PVal.str u.name) ∈ body ∧
      ("phonenumber", PVal.str u.phonenumber) ∈ body ∧
      ("password", PVal.str u.password) ∈ body := by
  unfold getProfile
  rw [hfind]
  dsimp only
  rw [hok]
  refine ⟨_, rfl, ?_⟩
  rw [userProfile_eq]
  simp

theorem C4_profile_contains_password_hash_witness :
    ∃ body, getProfile aliceDB 1 = ProfileRes.ok body ∧
      ("_id", PVal.num 1) ∈ body ∧ ("email", PVal.str "a@b.com") ∈ body ∧
      ("name", PVal.str "Alice") ∈ body ∧
      ("phonenumber", PVal.str "1234567890") ∈ body ∧
      ("password", PVal.str "H") ∈ body :=
  C4_profile_contains_password_hash aliceDB 1 aliceP [] (by decide) rfl

/-- C5 counterexample: with a@b.com already registered to the identity
whose id is 1, the Google sign-up for that email leaves the database
unchanged but mints a token whose subject is the undefined read of an id
off a boolean — not 1 — and the response user field is the literal
boolean true. -/
theorem C5_counterexample_token_subject_undefined :
    (googleSignup gEnvExisting aliceDB).tokenSubject = none ∧
    (googleSignup gEnvExisting aliceDB).tokenSubject ≠ some 1 ∧
    (googleSignup gEnvExisting aliceDB).db = aliceDB ∧
    (googleSignup gEnvExisting aliceDB).user = some GUserField.boolTrue := by
  decide

/-- C5 (amended): a verified Google sign-up whose payload email already
belongs to an identity creates no duplicate — the database is returned
unchanged with a success status — but the existing identity is not
resolved: the helper returned only a boolean, so the minted token embeds
an undefined subject rather than the identifier of that identity, and
the user field of the response is the boolean itself. -/
theorem C5_google_existing_email_token_undefined (env : GoogleEnv) (db : DB)
    (payload : GooglePayload)
    (hver : env.verify = Except.ok payload)
    (hex : emailExistsInBoth db payload.email = true) :
    googleSignup env db =
      ⟨db, 200, "User authenticated successfully", none, some GUserField.boolTrue⟩ := by
  unfold googleSignup
  rw [hver]
  dsimp only
  simp [hex]

theorem C5_google_existing_email_token_undefined_witness :
    googleSignup gEnvExisting aliceDB =
      ⟨aliceDB, 200, "User authenticated successfully", none, some GUserField.boolTrue⟩ :=
  C5_google_existing_email_token_undefined gEnvExisting aliceDB ⟨"a@b.com", "Alice"⟩
    rfl (by decide)

/-- C8: an email change submitted through /update whose new address
differs from the identity's stored email and is already held by an
identity in either variant is rejected with the Email already in use
outcome (HTTP 400) and the database — hence the stored email — is
unchanged; submitting the identity's own current email never produces
the duplicate-email outcome, since the guard is skipped for an equal
address. -/
theorem C8_update_email_uniqueness (env : UpdateEnv) (db : DB) (userId : Nat)
    (u : Passenger) (name phonenumber newPassword : Option String) (s : String)
    (hfind : db.passengers.find? (fun p => p._id == userId) = some u) :
    (s ≠ "" → s ≠ u.email → emailExistsInBoth db s = true →
      updateProfile env db userId name phonenumber (some s) newPassword =
        ⟨db, 400, none, "Email already in use", none⟩) ∧
    (s = u.email →
      (updateProfile env db userId name phonenumber (some s) newPassword).message ≠
        "Email already in use") := by
  constructor
  · intro hs hne hex
    unfold updateProfile
    rw [hfind]
    dsimp only
    rw [if_pos ⟨by simp [truthy, hs], by simpa using hne⟩]
    simp [hex]
  · intro hs
    unfold updateProfile
    rw [hfind]
    dsimp only
    rw [if_neg (by simp [hs])]
    simp only [finishUpdate]
    repeat' split
    all_goals simp

theorem C8_update_email_uniqueness_witness :
    updateProfile okEnvUpd bothDB 1 none none (some "d@x.com") none =
      ⟨bothDB, 400, none, "Email already in use", none⟩ ∧
    (updateProfile okEnvUpd bothDB 1 none none (some "a@b.com") none).message ≠
      "Email already in use" :=
  ⟨(C8_update_email_uniqueness okEnvUpd bothDB 1 aliceP none none none "d@x.com"
      (by decide)).1 (by decide) (by decide) (by decide),
   (C8_update_email_uniqueness okEnvUpd bothDB 1 aliceP none none none "a@b.com"
      (by decide)).2 rfl⟩

/-- C9 counterexample: updating Alice with the name " B0b! " and the
phone number "" succeeds, but the stored name is the trimmed "B0b!", not
the submitted string, and the empty phone string is skipped, leaving the
old "1234567890" in place — so "any phone-number string is accepted and
stored as-is" fails on both counts. -/
theorem C9_counterexample_trim_and_skip :
    (updateProfile okEnvUpd aliceDB 1 (some " B0b! ") (some "") none none).status =
      some "SUCCESS" ∧
    (updateProfile okEnvUpd aliceDB 1 (some " B0b! ") (some "") none none).data =
      some ⟨1, "a@b.com", "H", "B0b!", "1234567890", none⟩ ∧
    " B0b! " ≠ "B0b!" ∧ ("" : String) ≠ "1234567890" := by
  decide

/-- C9 (amended): the /update handler runs none of the registration-time
format validations: provided only that a changed email is not already
taken and the save succeeds, the update succeeds for every submitted
name, phone-number and email string — non-alphabetic names, phone
numbers of any length and content, and arbitrary email formats included.
Each truthy field is stored trimmed (not byte-for-byte as submitted) and
an empty-string field is skipped, leaving the stored value unchanged; so
the format invariants established at registration are not preserved by
update. -/
theorem C9_update_skips_format_validation (env : UpdateEnv) (db : DB) (userId : Nat)
    (u : Passenger) (name phonenumber email : Option String)
    (hfind : db.passengers.find? (fun p => p._id == userId) = some u)
    (hdup : ∀ s, email = some s → s ≠ "" → s ≠ u.email → emailExistsInBoth db s = false)
    (hsave : env.saveOk = true) :
    (updateProfile env db userId name phonenumber email none).httpStatus = 200 ∧
    (updateProfile env db userId name phonenumber email none).status = some "SUCCESS" ∧
    (updateProfile env db userId name phonenumber email none).data =
      some (applyFieldUpdates u name phonenumber
        (if truthy email = true ∧ email.getD "" ≠ u.email then email else none)) := by
  unfold updateProfile
  rw [hfind]
  dsimp only
  split
  case isTrue hcond =>
    have hex : emailExistsInBoth db (email.getD "") = false := by
      rcases email with _ | s
      · exact absurd hcond.1 (by simp [truthy])
      · exact hdup s rfl (by simpa [truthy] using hcond.1) (by simpa using hcond.2)
    rw [if_neg (by simp [hex])]
    simp [finishUpdate, truthy, hsave]
  case isFalse hcond =>
    simp [finishUpdate, truthy, hsave]

theorem C9_update_skips_format_validation_witness :
    (updateProfile okEnvUpd aliceDB 1 (some "B0b!!") (some " ab ")
      (some "not-an-email") none).httpStatus = 200 ∧
    (updateProfile okEnvUpd aliceDB 1 (some "B0b!!") (some " ab ")
      (some "not-an-email") none).status = some "SUCCESS" ∧
    (updateProfile okEnvUpd aliceDB 1 (some "B0b!!") (some " ab ")
      (some "not-an-email") none).data =
      some ⟨1, "not-an-email", "H", "B0b!!", "ab", none⟩ :=
  C9_update_skips_format_validation okEnvUpd aliceDB 1 aliceP (some "B0b!!")
    (some " ab ") (some "not-an-email") (by decide)
    (by intro s hs h1 h2; cases hs; decide) rfl
